import Mathlib

/-!
Verification development for the ReVanced GUI repository.

The definitions below are shallow embeddings of the Python source:
* `src/src/core/java_manager.py` — version-string parsing and Java validation,
* `src/src/core/patcher.py`      — input validation, command building, and the
  process runner (`run_patching` / `start_patching`),
* `src/src/core/system_monitor.py` — disk usage,
* `src/src/core/config.py`       — the JSON preferences store and its
  write-temp-then-rename save.

Python strings are modelled as `String`/`List Char`, machine behaviour that the
code merely observes (file existence, disk free bytes, the `java -version`
output, the child process's behaviour) is passed in explicitly, and Python
exceptions are modelled with `Option`.
-/

/-! ## Python string primitives -/

/-- The whitespace characters stripped by Python's `str.strip()` (ASCII range,
which is all the code ever meets in version strings). -/
def isPyWhitespace (c : Char) : Bool :=
  c = ' ' || c = '\t' || c = '\n' || c = '\r' || c = '\x0b' || c = '\x0c'

/-- `str.strip()` on a character list: drop whitespace from both ends. -/
def stripWS (cs : List Char) : List Char :=
  ((cs.dropWhile isPyWhitespace).reverse.dropWhile isPyWhitespace).reverse

/-- `str.strip('"')` on a character list: drop double quotes from both ends. -/
def stripQuotes (cs : List Char) : List Char :=
  ((cs.dropWhile (fun c => c = '\"')).reverse.dropWhile (fun c => c = '\"')).reverse

/-- `str.strip()` at the `String` level, used for the runner's
`line.strip()` on each subprocess output line. -/
def pyStripStr (s : String) : String :=
  String.mk (stripWS s.toList)

/-- Numeric value of a decimal digit character. -/
def digitVal (c : Char) : Nat := c.toNat - 48

/-- Digit run of Python's `int(...)` after the first digit: decimal digits with
single underscores allowed between digits (as Python accepts `0_291`), no
trailing or doubled underscore. -/
def parseDigitsU : List Char → Nat → Option Nat
  | [], acc => some acc
  | ['_'], _ => none
  | '_' :: d :: rest, acc =>
    if d.isDigit then parseDigitsU rest (acc * 10 + digitVal d) else none
  | c :: rest, acc =>
    if c.isDigit then parseDigitsU rest (acc * 10 + digitVal c) else none

/-- Python's `int(s)` on a string given as a character list: strips surrounding
whitespace, allows an optional sign, then requires a digit run; any other shape
raises `ValueError`, modelled as `none`. -/
def pyIntL (cs : List Char) : Option Int :=
  match stripWS cs with
  | '-' :: d :: rest =>
    if d.isDigit then (parseDigitsU rest (digitVal d)).map (fun n => -(n : Int)) else none
  | '+' :: d :: rest =>
    if d.isDigit then (parseDigitsU rest (digitVal d)).map (fun n => (n : Int)) else none
  | d :: rest =>
    if d.isDigit then (parseDigitsU rest (digitVal d)).map (fun n => (n : Int)) else none
  | [] => none

/-- Python's `s.split('.')`: always non-empty, keeps empty components. -/
def splitDot : List Char → List (List Char)
  | [] => [[]]
  | c :: rest =>
    if c = '.' then [] :: splitDot rest
    else
      match splitDot rest with
      | h :: t => (c :: h) :: t
      | [] => [[c]]

/-- `version.startswith('1.')`. -/
def startsWith1Dot (cs : List Char) : Bool :=
  match cs with
  | c1 :: c2 :: _ => c1 = '1' && c2 = '.'
  | _ => false

/-! ## `JavaManager.parse_java_version` (java_manager.py lines 10-18; the
identical copy lives in gui.py lines 598-612) -/

/-- The `version = version_string.strip().strip('"')` preprocessing. -/
def javaVersionCore (s : String) : List Char :=
  stripQuotes (stripWS s.toList)

/-- The `try:` body of `parse_java_version`: `none` models a `ValueError` from
`int(...)` or an `IndexError` from the list indexing. -/
def parse_attempt (s : String) : Option Int :=
  let v := javaVersionCore s
  let comps := splitDot v
  if startsWith1Dot v then (comps.get? 1).bind pyIntL
  else (comps.get? 0).bind pyIntL

/-- `JavaManager.parse_java_version`: the `except (ValueError, IndexError)`
handler returns `0`. -/
def parse_java_version (s : String) : Int :=
  (parse_attempt s).getD 0

/-! ## `JavaManager.check_java_installation` /
`validate_java_version_compatibility` (java_manager.py lines 20-55)

`check_java_installation` shells out to `java -version` and regex-extracts the
quoted version string; the extraction result (`none` when the regex does not
match, which also stands for the missing-Java paths) is the environment input
here, and the rest of the function is embedded faithfully. -/

def check_java_installation (versionMatch : Option String) : Bool × String :=
  match versionMatch with
  | none => (false, "Version format not recognized")
  | some vstr =>
    let major := parse_java_version vstr
    if 8 ≤ major then (true, vstr ++ " (Java " ++ toString major ++ ")")
    else (false, "Unsupported: " ++ vstr ++ " (need Java 8+)")

def validate_java_version_compatibility (versionMatch : Option String) : Bool × String :=
  let r := check_java_installation versionMatch
  if r.1 = true then
    let versionNum := parse_java_version r.2
    if versionNum < 11 then
      (false, "Java " ++ toString versionNum ++ " detected. ReVanced CLI may require Java 11+")
    else r
  else r

/-! ## `SystemMonitor.get_disk_usage` (system_monitor.py lines 21-40)

`psutil.disk_usage` is the environment; the function floors both figures to
whole GiB (`// 1024**3`) and returns `(0, 0)` when psutil is unavailable. -/

def get_disk_usage (psutilAvailable : Bool) (freeBytes totalBytes : Nat) : Nat × Nat :=
  if psutilAvailable = true then (freeBytes / 1024 ^ 3, totalBytes / 1024 ^ 3)
  else (0, 0)

/-! ## `APKPatcher` (patcher.py) -/

/-- The machine state `APKPatcher.validate_inputs` observes: the extracted
`java -version` string (input to the Java validation), file existence, file
sizes, psutil availability and the output volume's free/total bytes. -/
structure SysEnv where
  javaVersionMatch : Option String
  pathExists : String → Bool
  fileSize : String → Nat
  psutilAvailable : Bool
  diskFreeBytes : Nat
  diskTotalBytes : Nat

/-- `APKPatcher.validate_inputs` (patcher.py lines 20-54): ordered error list.
A path check fails when the string is empty (falsy) or the path does not
exist; the disk check runs only when psutil is available, the floored free-GiB
figure is positive and the APK path is a non-empty existing file. -/
def validate_inputs (env : SysEnv) (cliJarPath patchesRvpPath apkPath outputPath : String) :
    List (String × String) :=
  (if (validate_java_version_compatibility env.javaVersionMatch).1 = true then []
   else [("java_not_found", (validate_java_version_compatibility env.javaVersionMatch).2)]) ++
  (if cliJarPath = "" ∨ env.pathExists cliJarPath = false then
     [("file_not_found", "ReVanced CLI JAR file not found")] else []) ++
  (if patchesRvpPath = "" ∨ env.pathExists patchesRvpPath = false then
     [("file_not_found", "Patches RVP file not found")] else []) ++
  (if apkPath = "" ∨ env.pathExists apkPath = false then
     [("file_not_found", "APK file not found")] else []) ++
  (if outputPath = "" ∨ env.pathExists outputPath = false then
     [("file_not_found", "Output directory not found")] else []) ++
  (if env.psutilAvailable = true then
     (if 0 < (get_disk_usage env.psutilAvailable env.diskFreeBytes env.diskTotalBytes).1 ∧
         apkPath ≠ "" ∧ env.pathExists apkPath = true then
        (if (get_disk_usage env.psutilAvailable env.diskFreeBytes env.diskTotalBytes).1 <
            env.fileSize apkPath * 3 / 1024 ^ 3 then
           [("insufficient_memory",
             "Need " ++ toString (env.fileSize apkPath * 3 / 1024 ^ 3) ++ "GB, only " ++
             toString (get_disk_usage env.psutilAvailable env.diskFreeBytes env.diskTotalBytes).1 ++
             "GB free")]
         else [])
      else [])
   else [])

/-- `APKPatcher.build_command` (patcher.py lines 74-82). -/
def build_command (cliJarPath patchesRvpPath apkPath outputFile : String) : List String :=
  ["java", "-jar", cliJarPath, "patch",
   "-p", patchesRvpPath,
   "-o", outputFile,
   apkPath]

/-- Behaviour of the spawned child process, the environment input to
`run_patching`: it either fails to spawn (`FileNotFoundError` from `Popen`),
raises some other exception after emitting some output lines, or emits its
combined stdout/stderr lines and exits with a return code. -/
inductive ProcBehavior
  | spawnFail
  | raised (linesBeforeError : List String) (excText : String)
  | exited (returncode : Int) (outLines : List String)
deriving DecidableEq

/-- The runner's reported outcome: `success` carries the elapsed wall-clock
time `time.time() - self.start_time`; `failure` carries the error-kind tag and
message handed to the error callback. -/
inductive Outcome
  | success (elapsed : ℚ)
  | failure (kind : String) (msg : String)
deriving DecidableEq

/-- Sixty dashes, `"-" * 60`. -/
def dash60 : String := String.mk (List.replicate 60 '-')

/-- Sixty equals signs, `"=" * 60`. -/
def eq60 : String := String.mk (List.replicate 60 '=')

/-- One-decimal rendering of the elapsed seconds, modelling the `:.1f` format
of the success log line (floored to tenths; no claim depends on the final
digit's rounding mode). -/
def fmt1 (q : ℚ) : String :=
  let n : Int := (q * 10).num / ((q * 10).den : Int)
  toString (n / 10) ++ "." ++ toString (n % 10).natAbs

/-- `APKPatcher.run_patching` (patcher.py lines 84-124). `startTime` is the
`time.time()` recorded by `start_patching` just before the thread launch and
`endTime` the clock reading at completion. Returns the outcome (which callback
fired, with which arguments) and the lines sent to the log callback, in order;
the `finally:` block appends the closing `"=" * 60` on every path. -/
def run_patching (cmd : List String) (outputFile : String) (beh : ProcBehavior)
    (startTime endTime : ℚ) : Outcome × List String :=
  match beh with
  | ProcBehavior.exited code lines =>
    let echoed := lines.map pyStripStr
    if code = 0 then
      let elapsed := endTime - startTime
      let es := fmt1 elapsed
      (Outcome.success elapsed,
       echoed ++ [dash60,
                  "Patching completed successfully in " ++ es ++ "s!",
                  "Patched APK saved as: " ++ outputFile,
                  eq60])
    else
      let errorMsg := "Patching failed with return code " ++ toString code
      (Outcome.failure "patch_mismatch" errorMsg,
       echoed ++ [dash60, errorMsg, eq60])
  | ProcBehavior.spawnFail =>
    let errorMsg := "Java not found. Please make sure Java is installed and available in your PATH."
    (Outcome.failure "java_not_found" errorMsg, [dash60, errorMsg, eq60])
  | ProcBehavior.raised linesBefore excText =>
    let errorMsg := "Exception occurred: " ++ excText
    (Outcome.failure "unknown" errorMsg,
     linesBefore.map pyStripStr ++ [dash60, errorMsg, eq60])

/-- `APKPatcher.start_patching` (patcher.py lines 126-149): logs the banner
lines, builds the command, records `start_time`, and runs `run_patching` on a
worker thread. The result pairs the runner's outcome with the full ordered
log-sink traffic. -/
def start_patching (cliJarPath patchesRvpPath apkPath outputFile javaVersion : String)
    (beh : ProcBehavior) (startTime endTime : ℚ) : Outcome × List String :=
  let cmd := build_command cliJarPath patchesRvpPath apkPath outputFile
  let cmdStr := String.intercalate " " cmd
  let header :=
    [eq60,
     "Starting ReVanced Patching Process",
     eq60,
     "Input APK: " ++ apkPath,
     "Output file: " ++ outputFile,
     "Java version: " ++ javaVersion,
     "Using all available patches",
     "Command: " ++ cmdStr,
     dash60]
  let r := run_patching cmd outputFile beh startTime endTime
  (r.1, header ++ r.2)

/-! ## `ConfigManager` (config.py)

The preferences file's JSON values are strings and booleans only, so a JSON
value is modelled by `JVal` and the top-level document by an ordered key-value
list (`json.dump` writes, and `json.load` reads back, the insertion-ordered
dict). -/

inductive JVal
  | s (v : String)
  | b (v : Bool)
deriving DecidableEq

/-- Python `dict.get(key, default)` on the document (keys are unique in every
document the code writes). -/
def docGet (doc : List (String × JVal)) (key : String) (dflt : JVal) : JVal :=
  match doc with
  | [] => dflt
  | (k, v) :: rest => if k = key then v else docGet rest key dflt

/-- Python `str(...)` applied to a loaded JSON value, as in
`str(config.get('last_cli_path', ''))`. -/
def pyStr : JVal → String
  | JVal.s v => v
  | JVal.b true => "True"
  | JVal.b false => "False"

/-- Python truthiness of a JSON value. -/
def pyTruthy : JVal → Bool
  | JVal.s v => v ≠ ""
  | JVal.b v => v

/-- One step of the geometry regex: require a non-empty digit run, return the
remaining characters. -/
def expectDigits : List Char → Option (List Char)
  | c :: rest => if c.isDigit then some (rest.dropWhile Char.isDigit) else none
  | [] => none

/-- One step of the geometry regex: require the literal character `c`. -/
def expectChar (c : Char) : List Char → Option (List Char)
  | d :: rest => if d = c then some rest else none
  | [] => none

/-- `re.match(r'\d+x\d+\+\d+\+\d+', geometry)`: anchored at the start only,
trailing characters permitted (re.match does not anchor the end). -/
def geomMatch (s : String) : Bool :=
  (Option.bind (expectDigits s.toList) (fun r1 =>
   Option.bind (expectChar 'x' r1) (fun r2 =>
   Option.bind (expectDigits r2) (fun r3 =>
   Option.bind (expectChar '+' r3) (fun r4 =>
   Option.bind (expectDigits r4) (fun r5 =>
   Option.bind (expectChar '+' r5) (fun r6 =>
   expectDigits r6))))))).isSome

/-- `ConfigManager`'s own mutable fields. After a load they hold whatever JSON
values the file supplied, so they are `JVal`-typed. -/
structure CfgState where
  save_logs_enabled : JVal
  save_config_enabled : JVal
deriving DecidableEq

/-- `ConfigManager.__init__` defaults (config.py lines 12-16). -/
def initialCfg : CfgState :=
  { save_logs_enabled := JVal.b false, save_config_enabled := JVal.b true }

/-- The GUI fields `load_config`/`save_config` read and write: the three
remembered path variables, the currently selected APK, the window geometry and
the class version constant. -/
structure GuiState where
  cli_jar_path : String
  patches_rvp_path : String
  output_path : String
  apk_path : String
  geometry : String
  version : String
deriving DecidableEq

/-- `ConfigManager.load_config` (config.py lines 18-58) applied to the parsed
file content (`none` when `config.json` does not exist). Geometry handling:
a falsy value is skipped by the `if geometry and ...` guard, and a non-string
truthy value makes `re.match` raise, which the `except` swallows after the
earlier assignments — in both cases the geometry is left unchanged, which the
`JVal.b` branch captures. -/
def load_config (cfg : CfgState) (gui : GuiState) (file : Option (List (String × JVal))) :
    CfgState × GuiState :=
  if pyTruthy cfg.save_config_enabled = false then (cfg, gui)
  else
    match file with
    | none => (cfg, gui)
    | some doc =>
      let cfgNew : CfgState :=
        { save_logs_enabled := docGet doc "save_logs_enabled" (JVal.b false),
          save_config_enabled := docGet doc "save_config_enabled" (JVal.b true) }
      let geomVal := docGet doc "window_geometry" (JVal.s "")
      let guiNew : GuiState :=
        { gui with
          cli_jar_path := pyStr (docGet doc "last_cli_path" (JVal.s "")),
          patches_rvp_path := pyStr (docGet doc "last_patches_path" (JVal.s "")),
          output_path :=
            if gui.apk_path = "" then pyStr (docGet doc "last_output_dir" (JVal.s ""))
            else gui.output_path,
          geometry :=
            match geomVal with
            | JVal.s g => if g ≠ "" ∧ geomMatch g = true then g else gui.geometry
            | JVal.b _ => gui.geometry }
      (cfgNew, guiNew)

/-- The JSON document `ConfigManager.save_config` builds (config.py lines
68-76), in insertion order. -/
def configDocOf (cfg : CfgState) (gui : GuiState) : List (String × JVal) :=
  [("save_logs_enabled", cfg.save_logs_enabled),
   ("save_config_enabled", cfg.save_config_enabled),
   ("last_cli_path", JVal.s gui.cli_jar_path),
   ("last_patches_path", JVal.s gui.patches_rvp_path),
   ("last_output_dir", JVal.s gui.output_path),
   ("window_geometry", JVal.s gui.geometry),
   ("version", JVal.s gui.version)]

/-- `ConfigManager.save_config` (config.py lines 60-85) at the document level:
`none` when the enabled flag is falsy and nothing is written. -/
def save_config (cfg : CfgState) (gui : GuiState) : Option (List (String × JVal)) :=
  if pyTruthy cfg.save_config_enabled = false then none
  else some (configDocOf cfg gui)

/-- Save followed by a load into a fresh session: `loaderCfg` is the new
`ConfigManager` (its `__init__` defaults), `freshGui` the new GUI instance.
When `save_config` wrote nothing the loader sees no file. -/
def roundTrip (cfg : CfgState) (gui freshGui : GuiState) : CfgState × GuiState :=
  load_config initialCfg freshGui (save_config cfg gui)

/-! ### The on-disk picture of the save, for the atomicity claim

`save_config` writes the serialized document to `config_file.with_suffix('.tmp')`
— a sibling of `config.json` in the same directory — and then calls
`temp_file.replace(self.config_file)`, an atomic rename. A file on disk is
either a completely written serialization of some document or a proper prefix
of one (the state a kill mid-`write` leaves behind). -/

inductive FileContent
  | complete (d : List (String × JVal))
  | inProgress (d : List (String × JVal)) (bytesWritten : Nat)
deriving DecidableEq

/-- Contents of the two paths the save touches: `config.json` and the sibling
temporary file `config.tmp`. `none` means the path does not exist. -/
structure FsState where
  configFile : Option FileContent
  tempFile : Option FileContent
deriving DecidableEq

/-- The instants at which `save_config` can be observed (or killed): before the
temp write starts, mid-way through writing the temp file, after the temp file
is complete, and after the atomic rename. An exception at any step abandons
the run at that phase; only `renamed` touches `config.json`. -/
inductive SavePhase
  | started
  | writing (bytesWritten : Nat)
  | tempWritten
  | renamed
deriving DecidableEq

/-- Filesystem contents at each phase of `save_config` run on initial state
`fs` with document `d` (config.py lines 78-82). -/
def save_config_state (fs : FsState) (d : List (String × JVal)) : SavePhase → FsState
  | SavePhase.started => fs
  | SavePhase.writing k => { fs with tempFile := some (FileContent.inProgress d k) }
  | SavePhase.tempWritten => { fs with tempFile := some (FileContent.complete d) }
  | SavePhase.renamed => { configFile := some (FileContent.complete d), tempFile := none }

/-- The path holds no partially written document. -/
def isCompleteOrAbsent : Option FileContent → Prop
  | none => True
  | some (FileContent.complete _) => True
  | some (FileContent.inProgress _ _) => False

/-! ## Helper lemmas -/

theorem splitDot_ne_nil (cs : List Char) : splitDot cs ≠ [] := by
  cases cs with
  | nil => simp [splitDot]
  | cons c rest =>
    simp only [splitDot]
    split
    · simp
    · split <;> simp

theorem get1_of_startsWith1Dot (cs : List Char) (h : startsWith1Dot cs = true) :
    (splitDot cs).get? 1 = some ((splitDot cs).getD 1 []) := by
  cases cs with
  | nil => simp [startsWith1Dot] at h
  | cons c1 t =>
    cases t with
    | nil => simp [startsWith1Dot] at h
    | cons c2 rest =>
      simp only [startsWith1Dot, Bool.and_eq_true, decide_eq_true_eq] at h
      obtain ⟨h1, h2⟩ := h
      subst h1; subst h2
      obtain ⟨h0, t0, he⟩ : ∃ h0 t0, splitDot rest = h0 :: t0 := by
        cases hsd : splitDot rest with
        | nil => exact absurd hsd (splitDot_ne_nil rest)
        | cons a b => exact ⟨a, b, rfl⟩
      simp [splitDot, he, List.getD]

theorem get0_splitDot (cs : List Char) :
    (splitDot cs).get? 0 = some ((splitDot cs).getD 0 []) := by
  obtain ⟨h0, t0, he⟩ : ∃ h0 t0, splitDot cs = h0 :: t0 := by
    cases hsd : splitDot cs with
    | nil => exact absurd hsd (splitDot_ne_nil cs)
    | cons a b => exact ⟨a, b, rfl⟩
  simp [he, List.getD]

/-! ## Claim theorems -/

/-- C9: for every four input paths, `build_command` returns exactly the
nine-element vector `runtime, -jar, tool, patch, -p, patches, -o, output,
input` with nothing added, dropped or reordered (the runtime executable is the
literal `"java"`). -/
theorem c9_build_command_order (cli patches apk outFile : String) :
    build_command cli patches apk outFile =
      ["java", "-jar", cli, "patch", "-p", patches, "-o", outFile, apk] ∧
    (build_command cli patches apk outFile).length = 9 :=
  ⟨rfl, rfl⟩

/-- C4: `parse_java_version` maps a string whose stripped form begins with
`1.` to the integer value of the second dot-separated component (so
`"1.8.0_291"` parses to 8), any other string to the integer value of its first
dot-separated component (so `"17.0.2"` parses to 17), and a string whose
selected component is not an integer — the unparseable case — to 0 (the
`getD 0` of the failed conversion). -/
theorem c4_parse_java_version_format (s : String) :
    parse_java_version "1.8.0_291" = 8 ∧
    parse_java_version "17.0.2" = 17 ∧
    (startsWith1Dot (javaVersionCore s) = true →
      parse_java_version s =
        (pyIntL ((splitDot (javaVersionCore s)).getD 1 [])).getD 0) ∧
    (startsWith1Dot (javaVersionCore s) = false →
      parse_java_version s =
        (pyIntL ((splitDot (javaVersionCore s)).getD 0 [])).getD 0) := by
  refine ⟨by decide, by decide, ?_, ?_⟩
  · intro h
    unfold parse_java_version parse_attempt
    rw [if_pos h, get1_of_startsWith1Dot _ h]
    rfl
  · intro h
    unfold parse_java_version parse_attempt
    rw [if_neg (by simp [h]), get0_splitDot]
    rfl

/-- C4 witness: the theorem applied at the concrete inputs `"1.8.0_291"`
(old format) and `"17.0.2"` (new format). -/
theorem c4_parse_java_version_format_witness :
    parse_java_version "1.8.0_291" =
      (pyIntL ((splitDot (javaVersionCore "1.8.0_291")).getD 1 [])).getD 0 ∧
    parse_java_version "17.0.2" =
      (pyIntL ((splitDot (javaVersionCore "17.0.2")).getD 0 [])).getD 0 :=
  ⟨(c4_parse_java_version_format "1.8.0_291").2.2.1 (by decide),
   (c4_parse_java_version_format "17.0.2").2.2.2 (by decide)⟩

/-- C10: `parse_java_version` is total — it always returns the integer that
the try-block produces, and whenever the split-and-convert attempt fails
(`ValueError`/`IndexError`, modelled by `parse_attempt s = none`) the result
is 0; in particular the empty, non-numeric and malformed inputs all map
to 0. -/
theorem c10_parse_java_version_total (s : String) :
    parse_java_version s = (parse_attempt s).getD 0 ∧
    (parse_attempt s = none → parse_java_version s = 0) ∧
    parse_java_version "" = 0 ∧
    parse_java_version "abc" = 0 ∧
    parse_java_version "1.x.y" = 0 ∧
    parse_java_version "1." = 0 := by
  refine ⟨rfl, ?_, by decide, by decide, by decide, by decide⟩
  intro h
  unfold parse_java_version
  rw [h]
  rfl

/-- C10 witness: the theorem applied at the concrete unparseable input `""`. -/
theorem c10_parse_java_version_total_witness :
    parse_attempt "" = none ∧ parse_java_version "" = 0 :=
  ⟨by decide, (c10_parse_java_version_total "").2.1 (by decide)⟩

/-- C3: for every run of the process runner — any command, output file and
clock readings — exit code 0 reports success with the elapsed wall-clock time
since launch; a non-zero exit code n reports failure with kind
`patch_mismatch` and a message containing n; a spawn failure
(`FileNotFoundError`) reports failure with the launch-failure kind
`java_not_found` (the code's tag for a missing runtime); any other exception
reports failure with kind `unknown` and a message containing the exception
text. -/
theorem c3_run_patching_outcomes (cmd : List String) (outputFile : String) (t0 t1 : ℚ) :
    (∀ lines, (run_patching cmd outputFile (ProcBehavior.exited 0 lines) t0 t1).1 =
        Outcome.success (t1 - t0)) ∧
    (∀ (n : Int) (lines : List String), n ≠ 0 →
        (run_patching cmd outputFile (ProcBehavior.exited n lines) t0 t1).1 =
          Outcome.failure "patch_mismatch" ("Patching failed with return code " ++ toString n)) ∧
    ((run_patching cmd outputFile ProcBehavior.spawnFail t0 t1).1 =
        Outcome.failure "java_not_found"
          "Java not found. Please make sure Java is installed and available in your PATH.") ∧
    (∀ pre excText, (run_patching cmd outputFile (ProcBehavior.raised pre excText) t0 t1).1 =
        Outcome.failure "unknown" ("Exception occurred: " ++ excText)) := by
  refine ⟨fun lines => by simp [run_patching], fun n lines hn => by simp [run_patching, hn],
    rfl, fun pre excText => rfl⟩

/-- C3 witness: the theorem applied at a concrete non-zero exit code. -/
theorem c3_run_patching_outcomes_witness :
    (run_patching ["java"] "out.apk" (ProcBehavior.exited 2 ["done"]) 0 1).1 =
      Outcome.failure "patch_mismatch" ("Patching failed with return code " ++ toString (2 : Int)) :=
  (c3_run_patching_outcomes ["java"] "out.apk" 0 1).2.1 2 ["done"] (by decide)

/-- C1: whatever document `save_config` produces for the current preferences,
at every observable instant of the save — before, during or after the write of
the sibling temporary file, and after the atomic rename — `config.json` holds
either its previous content or the new complete document, never a partially
written one; and at every phase other than the final rename (in particular
whenever an exception aborts the save early) its content is exactly the
previous one. -/
theorem c1_atomic_save (fs : FsState) (cfg : CfgState) (gui : GuiState)
    (d : List (String × JVal)) (ph : SavePhase)
    (hsave : save_config cfg gui = some d)
    (hwf : isCompleteOrAbsent fs.configFile) :
    isCompleteOrAbsent (save_config_state fs d ph).configFile ∧
    ((save_config_state fs d ph).configFile = fs.configFile ∨
      (save_config_state fs d ph).configFile = some (FileContent.complete d)) ∧
    (ph ≠ SavePhase.renamed → (save_config_state fs d ph).configFile = fs.configFile) := by
  cases ph <;> simp [save_config_state, isCompleteOrAbsent] <;> exact hwf

/-- C1 witness: the theorem applied mid-write on an initially absent
`config.json` with the document of a concrete preferences record. -/
theorem c1_atomic_save_witness :
    isCompleteOrAbsent
      (save_config_state ⟨none, none⟩
        (configDocOf initialCfg
          ⟨"revanced-cli.jar", "patches.rvp", "out", "", "800x600+10+10", "2.0"⟩)
        (SavePhase.writing 3)).configFile ∧
    ((save_config_state ⟨none, none⟩
        (configDocOf initialCfg
          ⟨"revanced-cli.jar", "patches.rvp", "out", "", "800x600+10+10", "2.0"⟩)
        (SavePhase.writing 3)).configFile = (⟨none, none⟩ : FsState).configFile ∨
      (save_config_state ⟨none, none⟩
        (configDocOf initialCfg
          ⟨"revanced-cli.jar", "patches.rvp", "out", "", "800x600+10+10", "2.0"⟩)
        (SavePhase.writing 3)).configFile =
        some (FileContent.complete
          (configDocOf initialCfg
            ⟨"revanced-cli.jar", "patches.rvp", "out", "", "800x600+10+10", "2.0"⟩))) ∧
    (SavePhase.writing 3 ≠ SavePhase.renamed →
      (save_config_state ⟨none, none⟩
        (configDocOf initialCfg
          ⟨"revanced-cli.jar", "patches.rvp", "out", "", "800x600+10+10", "2.0"⟩)
        (SavePhase.writing 3)).configFile = (⟨none, none⟩ : FsState).configFile) :=
  c1_atomic_save ⟨none, none⟩ initialCfg
    ⟨"revanced-cli.jar", "patches.rvp", "out", "", "800x600+10+10", "2.0"⟩
    (configDocOf initialCfg
      ⟨"revanced-cli.jar", "patches.rvp", "out", "", "800x600+10+10", "2.0"⟩)
    (SavePhase.writing 3) rfl trivial

/-- Environment for the C2 counterexample: Java detected as `1.8.0_291`
(major version 8), every path existing, metrics capability absent. -/
def envJava8 : SysEnv :=
  { javaVersionMatch := some "1.8.0_291"
    pathExists := fun _ => true
    fileSize := fun _ => 0
    psutilAvailable := false
    diskFreeBytes := 0
    diskTotalBytes := 0 }

/-- C2 counterexample: with all four paths existing and a detected runtime
major version of exactly 8, `validate_inputs` does not return an empty error
list — the compatibility check re-parses the info string and rejects
majors below 11 — refuting the claim as stated. -/
theorem c2_counterexample :
    parse_java_version "1.8.0_291" = 8 ∧
    validate_inputs envJava8 "cli.jar" "patches.rvp" "app.apk" "out" =
      [("java_not_found", "Java 8 detected. ReVanced CLI may require Java 11+")] := by
  decide

/-- C2 (amended): with all four paths non-empty and existing, the runtime
compatibility validation succeeding (which requires an effective major version
of at least 11, not 8), and the floored free-GiB figure not simultaneously
positive and below the floored needed-GiB figure, `validate_inputs` returns an
empty error list. -/
theorem c2_amended_validate_empty (env : SysEnv) (cli patches apk out : String)
    (hjava : (validate_java_version_compatibility env.javaVersionMatch).1 = true)
    (hc : cli ≠ "") (hce : env.pathExists cli = true)
    (hp : patches ≠ "") (hpe : env.pathExists patches = true)
    (ha : apk ≠ "") (hae : env.pathExists apk = true)
    (ho : out ≠ "") (hoe : env.pathExists out = true)
    (hdisk : ¬(0 < env.diskFreeBytes / 1024 ^ 3 ∧
        env.diskFreeBytes / 1024 ^ 3 < env.fileSize apk * 3 / 1024 ^ 3)) :
    validate_inputs env cli patches apk out = [] := by
  unfold validate_inputs
  rw [if_pos hjava, if_neg (by simp [hc, hce]), if_neg (by simp [hp, hpe]),
      if_neg (by simp [ha, hae]), if_neg (by simp [ho, hoe])]
  by_cases hps : env.psutilAvailable = true
  · rw [if_pos hps]
    have hfree : (get_disk_usage env.psutilAvailable env.diskFreeBytes env.diskTotalBytes).1 =
        env.diskFreeBytes / 1024 ^ 3 := by rw [get_disk_usage, if_pos hps]
    by_cases hg : 0 < (get_disk_usage env.psutilAvailable env.diskFreeBytes env.diskTotalBytes).1 ∧
        apk ≠ "" ∧ env.pathExists apk = true
    · rw [if_pos hg, if_neg] ; · simp
      rw [hfree]
      intro hlt
      exact hdisk ⟨hfree ▸ hg.1, hlt⟩
    · rw [if_neg hg]
      simp
  · rw [if_neg hps]
    simp

/-- Environment for the C2 witness: Java 17, all paths present, ample disk. -/
def envJava17 : SysEnv :=
  { javaVersionMatch := some "17.0.2"
    pathExists := fun _ => true
    fileSize := fun _ => 50 * 1024 * 1024
    psutilAvailable := true
    diskFreeBytes := 10 * 1024 ^ 3
    diskTotalBytes := 100 * 1024 ^ 3 }

/-- C2 witness: the amended theorem applied at a concrete healthy
environment. -/
theorem c2_amended_validate_empty_witness :
    validate_inputs envJava17 "cli.jar" "patches.rvp" "app.apk" "out" = [] :=
  c2_amended_validate_empty envJava17 "cli.jar" "patches.rvp" "app.apk" "out"
    (by decide) (by decide) (by decide) (by decide) (by decide) (by decide)
    (by decide) (by decide) (by decide) (by decide)

/-- C7: with a compatible runtime detected, the tool JAR, patches file and
output directory all non-empty and existing, and the input package path
missing (empty or naming no existing file), `validate_inputs` returns exactly
one error, of kind `file_not_found`, whose message references the APK. -/
theorem c7_missing_apk (env : SysEnv) (cli patches apk out : String)
    (hjava : (validate_java_version_compatibility env.javaVersionMatch).1 = true)
    (hc : cli ≠ "") (hce : env.pathExists cli = true)
    (hp : patches ≠ "") (hpe : env.pathExists patches = true)
    (ho : out ≠ "") (hoe : env.pathExists out = true)
    (hapk : apk = "" ∨ env.pathExists apk = false) :
    validate_inputs env cli patches apk out = [("file_not_found", "APK file not found")] := by
  unfold validate_inputs
  rw [if_pos hjava, if_neg (by simp [hc, hce]), if_neg (by simp [hp, hpe]),
      if_pos hapk, if_neg (by simp [ho, hoe])]
  have hg : ¬(0 < (get_disk_usage env.psutilAvailable env.diskFreeBytes env.diskTotalBytes).1 ∧
      apk ≠ "" ∧ env.pathExists apk = true) := by
    rintro ⟨-, hne, hex⟩
    rcases hapk with h | h
    · exact hne h
    · rw [hex] at h
      exact Bool.noConfusion h
  by_cases hps : env.psutilAvailable = true
  · rw [if_pos hps, if_neg hg]
    simp
  · rw [if_neg hps]
    simp

/-- C7 witness: the theorem applied at a concrete environment where only the
APK path is missing. -/
theorem c7_missing_apk_witness :
    validate_inputs
      { javaVersionMatch := some "17.0.2"
        pathExists := fun p => p != "app.apk"
        fileSize := fun _ => 0
        psutilAvailable := true
        diskFreeBytes := 10 * 1024 ^ 3
        diskTotalBytes := 100 * 1024 ^ 3 }
      "cli.jar" "patches.rvp" "app.apk" "out" =
      [("file_not_found", "APK file not found")] :=
  c7_missing_apk _ "cli.jar" "patches.rvp" "app.apk" "out"
    (by decide) (by decide) (by decide) (by decide) (by decide) (by decide)
    (by decide) (Or.inr (by decide))

/-- Environment for the C8 counterexample: Java 17, every path existing,
psutil available, half a GiB free and a one-GiB APK. -/
def envLowFree : SysEnv :=
  { javaVersionMatch := some "17.0.2"
    pathExists := fun _ => true
    fileSize := fun _ => 1024 ^ 3
    psutilAvailable := true
    diskFreeBytes := 536870912
    diskTotalBytes := 1024 ^ 3 }

/-- C8 counterexample: free space (2^29 bytes) is far below three times the
package size (3·2^30 bytes), yet `validate_inputs` reports no error at all —
the floored free-GiB figure is 0 and the `free_gb > 0` guard skips the check —
refuting the claim as stated. -/
theorem c8_counterexample :
    envLowFree.diskFreeBytes < 3 * envLowFree.fileSize "app.apk" ∧
    validate_inputs envLowFree "cli.jar" "patches.rvp" "app.apk" "out" = [] := by
  decide

/-- C8 (amended): with the metrics capability available and all paths
existing, `validate_inputs` includes the insufficient-space error (tagged
`insufficient_memory` in the code) exactly when the floored free-GiB figure is
positive and strictly below the floored GiB figure of three times the package
size — not when the exact byte counts compare. The Java check's outcome is
irrelevant: its entry carries the kind `java_not_found`, never
`insufficient_memory`. -/
theorem c8_amended_disk_threshold (env : SysEnv) (cli patches apk out : String)
    (hc : cli ≠ "") (hce : env.pathExists cli = true)
    (hp : patches ≠ "") (hpe : env.pathExists patches = true)
    (ha : apk ≠ "") (hae : env.pathExists apk = true)
    (ho : out ≠ "") (hoe : env.pathExists out = true)
    (hps : env.psutilAvailable = true) :
    (∃ m, ("insufficient_memory", m) ∈ validate_inputs env cli patches apk out) ↔
      (0 < env.diskFreeBytes / 1024 ^ 3 ∧
       env.diskFreeBytes / 1024 ^ 3 < env.fileSize apk * 3 / 1024 ^ 3) := by
  unfold validate_inputs
  have e2 : (if cli = "" ∨ env.pathExists cli = false then
      ([("file_not_found", "ReVanced CLI JAR file not found")] : List (String × String))
      else []) = [] := if_neg (by simp [hc, hce])
  have e3 : (if patches = "" ∨ env.pathExists patches = false then
      ([("file_not_found", "Patches RVP file not found")] : List (String × String))
      else []) = [] := if_neg (by simp [hp, hpe])
  have e4 : (if apk = "" ∨ env.pathExists apk = false then
      ([("file_not_found", "APK file not found")] : List (String × String))
      else []) = [] := if_neg (by simp [ha, hae])
  have e5 : (if out = "" ∨ env.pathExists out = false then
      ([("file_not_found", "Output directory not found")] : List (String × String))
      else []) = [] := if_neg (by simp [ho, hoe])
  rw [e2, e3, e4, e5, if_pos hps]
  have hfree : (get_disk_usage env.psutilAvailable env.diskFreeBytes env.diskTotalBytes).1 =
      env.diskFreeBytes / 1024 ^ 3 := by rw [get_disk_usage, if_pos hps]
  rw [hfree]
  simp only [List.nil_append, List.append_nil]
  constructor
  · rintro ⟨m, hm⟩
    rw [List.mem_append] at hm
    rcases hm with hm | hm
    · exfalso
      by_cases hj : (validate_java_version_compatibility env.javaVersionMatch).1 = true
      · rw [if_pos hj] at hm
        simp at hm
      · rw [if_neg hj, List.mem_singleton] at hm
        have hfst : ("insufficient_memory" : String) = "java_not_found" := congrArg Prod.fst hm
        exact absurd hfst (by decide)
    · by_cases h1 : 0 < env.diskFreeBytes / 1024 ^ 3 ∧ apk ≠ "" ∧ env.pathExists apk = true
      · rw [if_pos h1] at hm
        by_cases h2 : env.diskFreeBytes / 1024 ^ 3 < env.fileSize apk * 3 / 1024 ^ 3
        · exact ⟨h1.1, h2⟩
        · rw [if_neg h2] at hm
          simp at hm
      · rw [if_neg h1] at hm
        simp at hm
  · rintro ⟨h0, hlt⟩
    rw [if_pos (show 0 < env.diskFreeBytes / 1024 ^ 3 ∧ apk ≠ "" ∧ env.pathExists apk = true
         from ⟨h0, ha, hae⟩), if_pos hlt]
    exact ⟨_, List.mem_append.mpr (Or.inr (List.mem_singleton.mpr rfl))⟩

/-- Environment for the C8 witness: one GiB free against a one-GiB APK, so the
floored comparison `1 < 3` fires the error. -/
def envOneGiB : SysEnv :=
  { javaVersionMatch := some "17.0.2"
    pathExists := fun _ => true
    fileSize := fun _ => 1024 ^ 3
    psutilAvailable := true
    diskFreeBytes := 1024 ^ 3
    diskTotalBytes := 4 * 1024 ^ 3 }

/-- C8 witness: the amended theorem applied at a concrete environment where
the floored comparison holds, yielding the error's presence. -/
theorem c8_amended_disk_threshold_witness :
    ∃ m, ("insufficient_memory", m) ∈
      validate_inputs envOneGiB "cli.jar" "patches.rvp" "app.apk" "out" :=
  (c8_amended_disk_threshold envOneGiB "cli.jar" "patches.rvp" "app.apk" "out"
    (by decide) (by decide) (by decide) (by decide) (by decide) (by decide)
    (by decide) (by decide) (by decide)).mpr (by decide)

/-- C6 counterexample: a stub child that prints exactly two lines and exits 0
does yield success, but the caller-supplied log sink does not receive only
those two lines — the runner interleaves banner, command, separator and
completion lines — refuting "and no other lines" as stated. -/
theorem c6_counterexample :
    (start_patching "cli.jar" "patches.rvp" "app.apk" "out.apk" "17"
        (ProcBehavior.exited 0 ["hello\n", "world\n"]) 0 1).1 = Outcome.success 1 ∧
    (start_patching "cli.jar" "patches.rvp" "app.apk" "out.apk" "17"
        (ProcBehavior.exited 0 ["hello\n", "world\n"]) 0 1).2 ≠ ["hello", "world"] := by
  constructor
  · show Outcome.success ((1 : ℚ) - 0) = Outcome.success 1
    norm_num
  · intro h
    have hlen : (start_patching "cli.jar" "patches.rvp" "app.apk" "out.apk" "17"
        (ProcBehavior.exited 0 ["hello\n", "world\n"]) 0 1).2.length = 15 := rfl
    rw [h] at hlen
    simp at hlen

/-- C6 (amended): for every stub child process that prints exactly two lines
and exits 0, and any clock pair with the finish instant after the launch, the
runner yields a success outcome whose elapsed time is strictly positive, and
the log sink receives the runner's banner and status lines with the two
output lines — whitespace-stripped — appearing consecutively, in their
original order, between the command banner and the completion lines. -/
theorem c6_amended_two_line_run (cli patches apk outFile jv l1 l2 : String) (t0 t1 : ℚ)
    (h : t0 < t1) :
    (start_patching cli patches apk outFile jv (ProcBehavior.exited 0 [l1, l2]) t0 t1).1 =
      Outcome.success (t1 - t0) ∧
    0 < t1 - t0 ∧
    (start_patching cli patches apk outFile jv (ProcBehavior.exited 0 [l1, l2]) t0 t1).2 =
      [eq60, "Starting ReVanced Patching Process", eq60,
       "Input APK: " ++ apk, "Output file: " ++ outFile, "Java version: " ++ jv,
       "Using all available patches",
       "Command: " ++ String.intercalate " " (build_command cli patches apk outFile),
       dash60,
       pyStripStr l1, pyStripStr l2,
       dash60,
       "Patching completed successfully in " ++ fmt1 (t1 - t0) ++ "s!",
       "Patched APK saved as: " ++ outFile,
       eq60] :=
  ⟨rfl, sub_pos.mpr h, rfl⟩

/-- C6 witness: the amended theorem applied at a concrete two-line stub run
from time 0 to time 1. -/
theorem c6_amended_two_line_run_witness :
    (start_patching "cli.jar" "patches.rvp" "app.apk" "out.apk" "17"
        (ProcBehavior.exited 0 ["hello\n", "world\n"]) 0 1).1 =
      Outcome.success ((1 : ℚ) - 0) ∧
    (0 : ℚ) < 1 - 0 ∧
    (start_patching "cli.jar" "patches.rvp" "app.apk" "out.apk" "17"
        (ProcBehavior.exited 0 ["hello\n", "world\n"]) 0 1).2 =
      [eq60, "Starting ReVanced Patching Process", eq60,
       "Input APK: " ++ "app.apk", "Output file: " ++ "out.apk", "Java version: " ++ "17",
       "Using all available patches",
       "Command: " ++ String.intercalate " "
         (build_command "cli.jar" "patches.rvp" "app.apk" "out.apk"),
       dash60,
       pyStripStr "hello\n", pyStripStr "world\n",
       dash60,
       "Patching completed successfully in " ++ fmt1 ((1 : ℚ) - 0) ++ "s!",
       "Patched APK saved as: " ++ "out.apk",
       eq60] :=
  c6_amended_two_line_run "cli.jar" "patches.rvp" "app.apk" "out.apk" "17"
    "hello\n" "world\n" 0 1 (by norm_num)

/-- A preferences state whose save-config flag is off (the C5 counterexample
record). -/
def cfgNoSave : CfgState :=
  { save_logs_enabled := JVal.b false, save_config_enabled := JVal.b false }

/-- A populated GUI state for the C5 counterexample. -/
def guiSaved : GuiState :=
  { cli_jar_path := "cli.jar", patches_rvp_path := "patches.rvp", output_path := "outdir"
    apk_path := "", geometry := "800x600+10+10", version := "2.0" }

/-- A fresh GUI instance with empty fields. -/
def guiFresh : GuiState :=
  { cli_jar_path := "", patches_rvp_path := "", output_path := ""
    apk_path := "", geometry := "640x480+0+0", version := "2.0" }

/-- C5 counterexample: for a preferences record whose save_config flag is
false, `save_config` writes nothing, so the save-then-load round trip restores
neither the remembered paths nor the flag itself — refuting "for every
preferences record" as stated. -/
theorem c5_counterexample :
    (roundTrip cfgNoSave guiSaved guiFresh).2.cli_jar_path ≠ guiSaved.cli_jar_path ∧
    (roundTrip cfgNoSave guiSaved guiFresh).1.save_config_enabled ≠
      cfgNoSave.save_config_enabled := by
  decide

/-- C5 (amended): for every preferences record whose save_config flag is true,
saving and then loading into a fresh session (whose new GUI has no APK
selected) restores the save_logs flag, the save_config flag and the three
remembered paths; a window_geometry string matching the WIDTHxHEIGHT+X+Y shape
is restored while a non-matching (or empty) one is discarded, leaving the
fresh geometry in place; and the version field, which the loader never reads
from the file, equals the original exactly when the loading program's own
version constant does. When the save_config flag is false nothing is saved,
so nothing is restored. -/
theorem c5_round_trip (cfg : CfgState) (gui fresh : GuiState)
    (hsc : cfg.save_config_enabled = JVal.b true)
    (hapk : fresh.apk_path = "") :
    (roundTrip cfg gui fresh).1.save_logs_enabled = cfg.save_logs_enabled ∧
    (roundTrip cfg gui fresh).1.save_config_enabled = cfg.save_config_enabled ∧
    (roundTrip cfg gui fresh).2.cli_jar_path = gui.cli_jar_path ∧
    (roundTrip cfg gui fresh).2.patches_rvp_path = gui.patches_rvp_path ∧
    (roundTrip cfg gui fresh).2.output_path = gui.output_path ∧
    (gui.geometry ≠ "" ∧ geomMatch gui.geometry = true →
      (roundTrip cfg gui fresh).2.geometry = gui.geometry) ∧
    (¬(gui.geometry ≠ "" ∧ geomMatch gui.geometry = true) →
      (roundTrip cfg gui fresh).2.geometry = fresh.geometry) ∧
    (fresh.version = gui.version → (roundTrip cfg gui fresh).2.version = gui.version) := by
  have hdoc : save_config cfg gui = some (configDocOf cfg gui) := by
    unfold save_config
    rw [hsc]
    rfl
  unfold roundTrip
  rw [hdoc]
  refine ⟨rfl, rfl, rfl, rfl, ?_, ?_, ?_, fun hv => hv⟩
  · show (if fresh.apk_path = "" then gui.output_path else fresh.output_path) = gui.output_path
    rw [if_pos hapk]
  · intro hg
    show (if gui.geometry ≠ "" ∧ geomMatch gui.geometry = true then gui.geometry
          else fresh.geometry) = gui.geometry
    rw [if_pos hg]
  · intro hg
    show (if gui.geometry ≠ "" ∧ geomMatch gui.geometry = true then gui.geometry
          else fresh.geometry) = fresh.geometry
    rw [if_neg hg]

/-- A preferences state with saving enabled, for the C5 witness. -/
def cfgSaving : CfgState :=
  { save_logs_enabled := JVal.b true, save_config_enabled := JVal.b true }

/-- C5 witness: the amended round-trip theorem applied at a concrete record
with saving enabled and a valid geometry. -/
theorem c5_round_trip_witness :
    (roundTrip cfgSaving guiSaved guiFresh).1.save_logs_enabled = cfgSaving.save_logs_enabled ∧
    (roundTrip cfgSaving guiSaved guiFresh).1.save_config_enabled =
      cfgSaving.save_config_enabled ∧
    (roundTrip cfgSaving guiSaved guiFresh).2.cli_jar_path = guiSaved.cli_jar_path ∧
    (roundTrip cfgSaving guiSaved guiFresh).2.patches_rvp_path = guiSaved.patches_rvp_path ∧
    (roundTrip cfgSaving guiSaved guiFresh).2.output_path = guiSaved.output_path ∧
    (guiSaved.geometry ≠ "" ∧ geomMatch guiSaved.geometry = true →
      (roundTrip cfgSaving guiSaved guiFresh).2.geometry = guiSaved.geometry) ∧
    (¬(guiSaved.geometry ≠ "" ∧ geomMatch guiSaved.geometry = true) →
      (roundTrip cfgSaving guiSaved guiFresh).2.geometry = guiFresh.geometry) ∧
    (guiFresh.version = guiSaved.version →
      (roundTrip cfgSaving guiSaved guiFresh).2.version = guiSaved.version) :=
  c5_round_trip cfgSaving guiSaved guiFresh rfl rfl
